import Mathlib

/-!
Verification of the SSH command-execution / file-transfer client
(`socket/ssh/ssh_client.py`, class `SSHClientWithReturnCode`, and its older
variant `socket/ssh_client.py`) against its natural-language specification.

The Python code is shallowly embedded: pure computations (POSIX path
manipulation, UTF-8 decoding, the `timeout`/duration check) are translated
directly; the external collaborators (`paramiko` SFTP channel, the local
filesystem via `os`, remote command execution) are modelled as oracle
functions bundled in an `Env` record, and each method body is translated
into a function that threads an `Except`-style error state and records the
externally visible effects (channel opening, SFTP operations, remote
commands) in the order the code issues them.
-/

namespace SSHSpec

/-- Kinds of Python exceptions the client code raises or handles.
`osError` stands for any other `OSError` not specially handled,
`unicodeError` for `UnicodeDecodeError`. -/
inductive PyErr where
  | valueError
  | fileNotFound
  | permissionError
  | assertionError
  | runtimeError
  | osError
  | unicodeError
  deriving DecidableEq, Repr

/-! ## POSIX path helpers (`os.path` on a POSIX host, as used by the client) -/

/-- Strip trailing `'/'` characters: `s.rstrip(os.sep)` / the tail-stripping
step of `posixpath.split`. -/
def stripTrailingSlashesL (cs : List Char) : List Char :=
  (cs.reverse.dropWhile (fun c => c = '/')).reverse

/-- `posixpath.split`: cut at the final `'/'`; the head keeps its slash
unless it consists only of slashes, in which case it is kept whole. -/
def splitAtLastSlashL (cs : List Char) : List Char × List Char :=
  let tail := (cs.reverse.takeWhile (fun c => c ≠ '/')).reverse
  (cs.take (cs.length - tail.length), tail)

/-- `os.path.split` for POSIX paths. -/
def pySplitPath (p : String) : String × String :=
  let ht := splitAtLastSlashL p.data
  let head :=
    if ht.1 ≠ [] ∧ ht.1.any (fun c => c ≠ '/') then stripTrailingSlashesL ht.1 else ht.1
  (⟨head⟩, ⟨ht.2⟩)

/-- `os.path.dirname` for POSIX paths. -/
def pyDirname (p : String) : String := (pySplitPath p).1

/-- `os.path.basename` for POSIX paths. -/
def pyBasename (p : String) : String := (pySplitPath p).2

/-- `os.path.isabs` for POSIX paths. -/
def pyIsAbs (p : String) : Bool := p.data.take 1 = ['/']

/-- `s.rstrip(os.sep)` on a POSIX host. -/
def pyRstripSep (p : String) : String := ⟨stripTrailingSlashesL p.data⟩

/-- `os.path.join a b` for POSIX paths (two-argument form, as the code uses). -/
def pyJoin (a b : String) : String :=
  if pyIsAbs b then b
  else if a = "" ∨ a.data.getLast? = some '/' then a ++ b
  else a ++ "/" ++ b

/-- `str.strip()` (whitespace at both ends), used on the `whoami` output. -/
def pyStrip (p : String) : String :=
  ⟨((p.data.dropWhile Char.isWhitespace).reverse.dropWhile Char.isWhitespace).reverse⟩

/-- `stat.S_ISDIR`: the file-type bits `0o170000` equal `0o040000`. -/
def S_ISDIR (m : Nat) : Bool := m &&& 61440 = 16384

/-- `stat.S_IMODE`: the permission bits `mode & 0o7777`. -/
def S_IMODE (m : Nat) : Nat := m &&& 4095

/-- `f"{mode:o}"`: octal rendering of a mode. -/
def natToOctal (n : Nat) : String := ⟨Nat.toDigits 8 n⟩

/-! ## Python float semantics for the `duration` check

`__init__` runs `self.duration = float(self.duration)` (any conversion error
is raised unhandled) and then raises `ValueError` when `self.duration <= 0`.
Python floats include infinities and NaN, and `nan <= 0` is false, so the
comparison is modelled on an explicit IEEE-style carrier. -/

/-- A Python float value: a finite rational, an infinity, or NaN.  (The
claims about the duration check depend only on sign / specialness, not on
binary rounding, so finite values are carried exactly.) -/
inductive PyFloat where
  | finite (q : ℚ)
  | inf
  | ninf
  | nan
  deriving DecidableEq, Repr

/-- The Python comparison `d <= 0` on a float, IEEE semantics
(`inf <= 0` and `nan <= 0` are both false). -/
def pyFloatLeZero : PyFloat → Bool
  | .finite q => decide (q ≤ 0)
  | .inf => false
  | .ninf => true
  | .nan => false

/-! ## Effect traces and the error/trace monad

`put` / `get` interact with the outside world through the SFTP sub-channel,
the local filesystem and `self.run`.  Each embedded method returns, besides
its `Except` outcome, the ordered list of externally visible effects it
issued, so that claims about "no remote call before the error" or about the
exact fallback command sequence can be stated. -/

/-- Externally visible effects of `put` / `get`. -/
inductive Eff where
  | openSftp                                -- `self.client.open_sftp()` inside the `sftp` property
  | sftpStat (p : String)                   -- `sftp.stat(p)`
  | sftpPut (localpath remotepath : String) -- `sftp.put(localpath, remotepath)`
  | sftpGet (remotepath localpath : String) -- `sftp.get(remotepath, localpath)`
  | sftpChmod (p : String) (mode : Nat)     -- `sftp.chmod(p, mode)`
  | sftpRemove (p : String)                 -- `sftp.remove(p)`
  | runCmd (c : String)                     -- `self.run(c)` (one remote command channel)
  | warnExists (p : String)                 -- `logger.warning(... exist ... rewrite ...)`
  | osChmod (p : String) (mode : Nat)       -- `os.chmod(p, mode)`
  | osChown (p owner : String)              -- `shutil.chown(p, user, user)`
  deriving DecidableEq, Repr

/-- Error-propagating computation that records an effect trace. -/
def TrM (α : Type) : Type := Except PyErr α × List Eff

/-- Bind of `TrM`: an already-raised exception skips the continuation. -/
def trBind {α β : Type} (x : TrM α) (f : α → TrM β) : TrM β :=
  match x with
  | (.error e, t) => (.error e, t)
  | (.ok a, t) => ((f a).1, t ++ (f a).2)

/-- Pure value, no effects. -/
def trPure {α : Type} (a : α) : TrM α := (.ok a, [])

instance : Monad TrM where
  pure := trPure
  bind := trBind

/-- Raise a Python exception. -/
def terr {α : Type} (e : PyErr) : TrM α := (.error e, [])

/-- Record effects. -/
def temit (es : List Eff) : TrM Unit := (.ok (), es)

/-! ## Oracles for the external collaborators -/

/-- Outcome of a `stat` call (`sftp.stat` or `os.stat`): the `st_mode` of an
existing entry, or the exception class raised.  `otherErr` stands for any
`OSError` that is neither `FileNotFoundError` nor `PermissionError`. -/
inductive StatRes where
  | found (stMode : Nat)
  | notFound
  | permDenied
  | otherErr
  deriving DecidableEq, Repr

/-- Oracle bundle for one `put`/`get` call: the local filesystem (`os`),
the SFTP collaborator, and remote command execution (`self.run`).  The
oracles are pure functions: the filesystems are assumed unchanged for the
duration of the call. -/
structure Env where
  /-- `hasattr(local, "write") and callable(...)`: the `local` argument is a
  file-like object instead of a path. -/
  isFileLike : Bool
  /-- `os.path.abspath` (resolution against the process working directory). -/
  abspath : String → String
  /-- `os.path.exists`. -/
  pathExists : String → Bool
  /-- `os.path.isfile`. -/
  isfile : String → Bool
  /-- `os.stat` on the local filesystem. -/
  osStat : String → StatRes
  /-- `os.stat(local).st_mode` for an existing local file (used by
  `put` with `preserve_mode`). -/
  localStMode : String → Nat
  /-- `sftp.stat` on the remote filesystem. -/
  sftpStat : String → StatRes
  /-- `sftp.put localpath remotepath`: `none` on success, the raised error
  otherwise. -/
  sftpPutRes : String → String → Option PyErr
  /-- `sftp.get remotepath localpath`: `none` on success. -/
  sftpGetRes : String → String → Option PyErr
  /-- `sftp.chmod p mode`: `none` on success. -/
  sftpChmodRes : String → Nat → Option PyErr
  /-- `self.run c` = (exit code, stdout text, stderr text). -/
  run : String → Int × String × String
  /-- Model of `re.search(r"Access: \((\d+).*\)  Uid", out)` followed by
  `int(group(1), 8)`: the octal mode extracted from `sudo stat` output,
  or `none` when the pattern does not match. -/
  parseStatMode : String → Option Nat
  /-- `getpass.getuser()`. -/
  currentUser : String

/-- Access to the `sftp` property: opens the SFTP sub-channel on first use
(`self._sftp is None`), afterwards returns the memoized handle. -/
def sftpAccess (sftpCreated : Bool) : TrM Unit :=
  (.ok (), if sftpCreated then [] else [.openSftp])

/-! ## `__init__`: the duration check (both client variants, identical code)

```
self.duration = duration
if self.duration is not None:
    # unhandled convert error, just raise it
    self.duration = float(self.duration)
    if self.duration <= 0:
        raise ValueError(...)
...
self.client.connect(...)
```
-/

/-- Effects of `__init__` relevant to the claims: the TCP connect (after
which commands can be run). -/
inductive InitEff where
  | connect
  deriving DecidableEq, Repr

/-- The duration validation step of `__init__`.  The argument is the
outcome of `float(duration)` for a non-`None` duration (`.error` when the
conversion itself raises, which the code deliberately leaves unhandled). -/
def checkDuration (conv : Except PyErr PyFloat) : Except PyErr PyFloat :=
  match conv with
  | .error e => .error e
  | .ok d => if pyFloatLeZero d then .error .valueError else .ok d

/-- `__init__` up to the `connect` call, restricted to the duration
parameter: `durationArg = none` models `duration=None`; `some conv` models a
non-`None` duration whose `float(...)` conversion yields `conv`.  The
`connect` effect is issued only after the validation passed. -/
def initModel (durationArg : Option (Except PyErr PyFloat)) :
    Except PyErr (Option PyFloat) × List InitEff :=
  match durationArg with
  | none => (.ok none, [.connect])
  | some conv =>
    match checkDuration conv with
    | .error e => (.error e, [])
    | .ok d => (.ok (some d), [.connect])

/-! ## `put` (upload), `socket/ssh/ssh_client.py` lines 231–326 -/

/-- Destination resolution of `put` (lines 264–290): probe `remote`; a
directory target gets `basename(local)` appended; on `FileNotFoundError`
the parent is considered (`"/"` as parent is an immediate not-found, and an
error from probing the parent propagates); on `PermissionError` with
`sudo`, elevated `[ -d ... ]` probes replace the SFTP probe, the failed
assertion raising `AssertionError`. -/
def resolvePutTargetM (env : Env) (useSudo : Bool) (remote localBase : String) : TrM String :=
  match env.sftpStat remote with
  | .found m =>
    if S_ISDIR m then (.ok (pyJoin remote localBase), [.sftpStat remote])
    else (.ok remote, [.sftpStat remote])
  | .notFound =>
    let d := pyDirname remote
    if d = "/" then (.error .fileNotFound, [.sftpStat remote])
    else
      match env.sftpStat d with
      | .found _ => (.ok remote, [.sftpStat remote, .sftpStat d])
      | .notFound => (.error .fileNotFound, [.sftpStat remote, .sftpStat d])
      | .permDenied => (.error .permissionError, [.sftpStat remote, .sftpStat d])
      | .otherErr => (.error .osError, [.sftpStat remote, .sftpStat d])
  | .permDenied =>
    if useSudo then
      let c1 := "sudo [ -d " ++ remote ++ " ]"
      if (env.run c1).1 = 0 then (.ok (pyJoin remote localBase), [.sftpStat remote, .runCmd c1])
      else
        let d := pyDirname remote
        let c2 := "sudo [ -d " ++ d ++ " ]"
        if (env.run c2).1 = 0 then (.ok remote, [.sftpStat remote, .runCmd c1, .runCmd c2])
        else (.error .assertionError, [.sftpStat remote, .runCmd c1, .runCmd c2])
    else (.error .permissionError, [.sftpStat remote])
  | .otherErr => (.error .osError, [.sftpStat remote])

/-- `put`'s existing-target pre-check (lines 292–298): `sftp.stat(remote)`
with an existing target only logged as a rewrite warning, and
`FileNotFoundError` / `PermissionError` swallowed by `pass`. -/
def putExistCheck (res : StatRes) (target : String) : TrM Unit :=
  match res with
  | .found _ => (.ok (), [.sftpStat target, .warnExists target])
  | .notFound => (.ok (), [.sftpStat target])
  | .permDenied => (.ok (), [.sftpStat target])
  | .otherErr => (.error .osError, [.sftpStat target])

/-- `put`'s transfer attempt and mode preservation (lines 300–326): direct
`sftp.put` first; on `PermissionError` upload to `/tmp/<basename>` and
`sudo mv` into place (non-zero exit is a `RuntimeError`); then, when
`preserve_mode`, `sftp.chmod` with a `sudo chmod` fallback on
`PermissionError`. -/
def putTransferPhase (env : Env) (localAbs target : String) (preserveMode : Bool) : TrM Unit := do
  temit [.sftpPut localAbs target]
  match env.sftpPutRes localAbs target with
  | none => pure ()
  | some .permissionError =>
    let tmpRemote := pyJoin "/tmp" (pyBasename target)
    temit [.sftpPut localAbs tmpRemote]
    match env.sftpPutRes localAbs tmpRemote with
    | none =>
      let cmv := "sudo mv " ++ tmpRemote ++ " " ++ target
      temit [.runCmd cmv]
      if (env.run cmv).1 ≠ 0 then terr .runtimeError
    | some e => terr e
  | some e => terr e
  if preserveMode then
    let mode := S_IMODE (env.localStMode localAbs)
    temit [.sftpChmod target mode]
    match env.sftpChmodRes target mode with
    | none => pure ()
    | some .permissionError =>
      let cch := "sudo chmod " ++ natToOctal mode ++ " " ++ target
      temit [.runCmd cch]
      if (env.run cch).1 ≠ 0 then terr .runtimeError
    | some e => terr e

/-- `put(local, remote, preserve_mode, sudo)` (lines 231–326).
`sftpCreated` records whether `self._sftp` already exists when the call
starts; note that the code reads `self.sftp` (line 256) before validating
`remote` (lines 259–262). -/
def putModel (env : Env) (sftpCreated : Bool) (localArg remote : String)
    (preserveMode useSudo : Bool) : TrM Unit := do
  if env.isFileLike then terr .valueError
  let localAbs := if pyIsAbs localArg then localArg else env.abspath localArg
  if ¬ env.pathExists localAbs then terr .fileNotFound
  if ¬ env.isfile localAbs then terr .valueError
  sftpAccess sftpCreated
  let localBase := pyBasename localAbs
  if remote = "" then terr .valueError
  else if ¬ pyIsAbs remote then terr .valueError
  let target ← resolvePutTargetM env useSudo remote localBase
  putExistCheck (env.sftpStat target) target
  putTransferPhase env localAbs target preserveMode

/-! ## `get` (download), `socket/ssh/ssh_client.py` lines 328–422 -/

/-- `get`'s privilege-escalation fallback (lines 382–401), entered when the
direct `sftp.get` raised `PermissionError`: `sudo cp` to `/tmp`, a plain
`whoami`, a combined `sudo [ -f ... ] && sudo chown`, the staged fetch, and
`sftp.remove` of the staged copy; every non-zero exit code raises
`RuntimeError`. -/
def getSudoFallback (env : Env) (remote localAbs : String) : TrM Unit := do
  let ccp := "sudo cp " ++ remote ++ " /tmp"
  temit [.runCmd ccp]
  if (env.run ccp).1 ≠ 0 then terr .runtimeError
  temit [.runCmd "whoami"]
  if (env.run "whoami").1 ≠ 0 then terr .runtimeError
  let username := pyStrip (env.run "whoami").2.1
  let tmpRemote := pyJoin "/tmp" (pyBasename remote)
  let cchown := "sudo [ -f " ++ tmpRemote ++ " ] && sudo chown " ++ username ++ ":" ++
    username ++ " " ++ tmpRemote
  temit [.runCmd cchown]
  if (env.run cchown).1 ≠ 0 then terr .runtimeError
  temit [.sftpGet tmpRemote localAbs]
  match env.sftpGetRes tmpRemote localAbs with
  | none => temit [.sftpRemove tmpRemote]
  | some e => terr e

/-- `get`'s mode recovery for `preserve_mode` (lines 404–417): `sftp.stat`
directly, or on `PermissionError` a `sudo stat` whose text output is
pattern-matched for the octal mode (`ValueError` when the pattern is
absent). -/
def getRemoteMode (env : Env) (remote : String) : TrM Nat := do
  temit [.sftpStat remote]
  match env.sftpStat remote with
  | .found m => pure (S_IMODE m)
  | .notFound => terr .fileNotFound
  | .permDenied =>
    let cst := "sudo stat " ++ remote
    temit [.runCmd cst]
    if (env.run cst).1 ≠ 0 then terr .runtimeError
    match env.parseStatMode (env.run cst).2.1 with
    | none => terr .valueError
    | some m => pure m
  | .otherErr => terr .osError

/-- `get`'s local-path directory check (lines 364–369):

```
try:
    if stat.S_ISDIR(os.stat(local).st_mode):
        raise ValueError(...)
except FileNotFoundError:
    dirname, basename = os.path.split(local.rstrip(os.sep))
    stat.S_ISDIR(os.stat(dirname).st_mode)
```

In the `FileNotFoundError` branch the final `stat.S_ISDIR(...)` is a bare
expression statement: its boolean result is discarded, so only the
exceptions of `os.stat(dirname)` can propagate — nothing is rejected when
the parent exists. -/
def getLocalCheck (env : Env) (localAbs : String) : TrM Unit :=
  match env.osStat localAbs with
  | .found m => if S_ISDIR m then terr .valueError else pure ()
  | .notFound =>
    let dn := (pySplitPath (pyRstripSep localAbs)).1
    match env.osStat dn with
    | .found _ => pure ()      -- `S_ISDIR` computed and discarded
    | .notFound => terr .fileNotFound
    | .permDenied => terr .permissionError
    | .otherErr => terr .osError
  | .permDenied => terr .permissionError
  | .otherErr => terr .osError

/-- `get(remote, local, preserve_mode, sudo)` (lines 328–422).  The `sftp`
property is read first (line 342), before any validation. -/
def getModel (env : Env) (sftpCreated : Bool) (remote localArg : String)
    (preserveMode useSudo : Bool) : TrM Unit := do
  sftpAccess sftpCreated
  if remote = "" then terr .valueError
  else if ¬ pyIsAbs remote then terr .valueError
  temit [.sftpStat remote]
  match env.sftpStat remote with
  | .found m => if S_ISDIR m then terr .valueError
  | .notFound => terr .fileNotFound
  | .permDenied =>
    if useSudo then
      let cvr := "sudo [ -f " ++ remote ++ " ]"
      temit [.runCmd cvr]
      if (env.run cvr).1 ≠ 0 then terr .assertionError
    else terr .permissionError
  | .otherErr => terr .osError
  if localArg = "" then terr .valueError
  let localAbs := if pyIsAbs localArg then localArg else env.abspath localArg
  getLocalCheck env localAbs
  match env.osStat localAbs with
  | .found _ => temit [.warnExists localAbs]
  | .notFound => pure ()
  | .permDenied => terr .permissionError
  | .otherErr => terr .osError
  temit [.sftpGet remote localAbs]
  match env.sftpGetRes remote localAbs with
  | none => pure ()
  | some .permissionError => getSudoFallback env remote localAbs
  | some e => terr e
  if preserveMode then
    let mode ← getRemoteMode env remote
    -- `os.chmod(local, mode)`; `shutil.chown(local, user, user)`
    temit [.osChmod localAbs mode, .osChown localAbs env.currentUser]

/-! ## UTF-8 decoding with an error handler

`run` returns `self.stdout_chunks.decode('utf-8', 'ignore')` (and likewise
for stderr).  The CPython UTF-8 decoder is modelled over byte lists: the
error handler is invoked on each maximal ill-formed subpart, `strict`
raising `UnicodeDecodeError`, `ignore` emitting nothing, `replace` emitting
U+FFFD. -/

/-- A codec error handler, as in `bytes.decode('utf-8', handler)`. -/
inductive Utf8Handler where
  | strict
  | ignore
  | replace
  deriving DecidableEq, Repr

/-- Apply the error handler for one ill-formed subpart: `strict` raises,
`ignore` drops it, `replace` substitutes U+FFFD. -/
def utf8OnErr (h : Utf8Handler) (k : Except Unit (List Nat)) : Except Unit (List Nat) :=
  match h with
  | .strict => .error ()
  | .ignore => k
  | .replace => (fun cs => 0xFFFD :: cs) <$> k

/-- A UTF-8 continuation byte `0x80..0xBF`. -/
def utf8Cont (b : Nat) : Bool := 0x80 ≤ b ∧ b ≤ 0xBF

/-- Lower bound of the valid second byte for a given leading byte
(`0xE0` and `0xF0` exclude overlong encodings). -/
def utf8SndLo (b0 : Nat) : Nat := if b0 = 0xE0 then 0xA0 else if b0 = 0xF0 then 0x90 else 0x80

/-- Upper bound of the valid second byte for a given leading byte
(`0xED` excludes surrogates, `0xF4` caps at U+10FFFF). -/
def utf8SndHi (b0 : Nat) : Nat := if b0 = 0xED then 0x9F else if b0 = 0xF4 then 0x8F else 0xBF

/-- `bytes.decode('utf-8', h)`: code points from bytes.  On an ill-formed
sequence the handler consumes its maximal valid prefix (at least the
leading byte) and decoding resumes at the following byte, matching the
CPython decoder. -/
def utf8DecodeWith (h : Utf8Handler) : List Nat → Except Unit (List Nat)
  | [] => .ok []
  | b0 :: rest =>
    if b0 < 0x80 then
      (fun cs => b0 :: cs) <$> utf8DecodeWith h rest
    else if b0 < 0xC2 then
      -- stray continuation byte or overlong 2-byte lead
      utf8OnErr h (utf8DecodeWith h rest)
    else if b0 < 0xE0 then
      match rest with
      | [] => utf8OnErr h (.ok [])
      | b1 :: rest1 =>
        if utf8Cont b1 then
          (fun cs => ((b0 - 0xC0) * 0x40 + (b1 - 0x80)) :: cs) <$> utf8DecodeWith h rest1
        else utf8OnErr h (utf8DecodeWith h (b1 :: rest1))
    else if b0 < 0xF0 then
      match rest with
      | [] => utf8OnErr h (.ok [])
      | b1 :: rest1 =>
        if utf8SndLo b0 ≤ b1 ∧ b1 ≤ utf8SndHi b0 then
          match rest1 with
          | [] => utf8OnErr h (.ok [])
          | b2 :: rest2 =>
            if utf8Cont b2 then
              (fun cs =>
                ((b0 - 0xE0) * 0x1000 + (b1 - 0x80) * 0x40 + (b2 - 0x80)) :: cs) <$>
                utf8DecodeWith h rest2
            else utf8OnErr h (utf8DecodeWith h (b2 :: rest2))
        else utf8OnErr h (utf8DecodeWith h (b1 :: rest1))
    else if b0 < 0xF5 then
      match rest with
      | [] => utf8OnErr h (.ok [])
      | b1 :: rest1 =>
        if utf8SndLo b0 ≤ b1 ∧ b1 ≤ utf8SndHi b0 then
          match rest1 with
          | [] => utf8OnErr h (.ok [])
          | b2 :: rest2 =>
            if utf8Cont b2 then
              match rest2 with
              | [] => utf8OnErr h (.ok [])
              | b3 :: rest3 =>
                if utf8Cont b3 then
                  (fun cs =>
                    ((b0 - 0xF0) * 0x40000 + (b1 - 0x80) * 0x1000 +
                      (b2 - 0x80) * 0x40 + (b3 - 0x80)) :: cs) <$>
                    utf8DecodeWith h rest3
                else utf8OnErr h (utf8DecodeWith h (b3 :: rest3))
            else utf8OnErr h (utf8DecodeWith h (b2 :: rest2))
        else utf8OnErr h (utf8DecodeWith h (b1 :: rest1))
    else
      -- 0xF5..0xFF can start no sequence
      utf8OnErr h (utf8DecodeWith h rest)

/-! ## The `run` loop (`socket/ssh/ssh_client.py` lines 137–206)

The command channel is modelled by its two receive buffers plus the
closed / exit-status flags; the remote side and the selector are an oracle
script, one `Round` per iteration of the `while` loop: which bytes arrive
during the `select` wait, whether the channel closes / the exit status
lands, whether the selector reports readiness, and whether the iteration
raises (a `select`/`recv` error surfaced by the multiplexer loop). -/

/-- Observable state of one `paramiko.Channel`. -/
structure Chan where
  outPend : List Nat   -- `channel.in_buffer` (stdout bytes not yet received)
  errPend : List Nat   -- `channel.in_stderr_buffer`
  closed : Bool        -- `channel.closed`
  exitReady : Bool     -- `channel.exit_status_ready()`
  exitCode : Int       -- the eventual `recv_exit_status()`
  deriving DecidableEq, Repr

/-- `channel.recv_ready()`. -/
def recvReady (c : Chan) : Bool := c.outPend ≠ []

/-- `channel.recv_stderr_ready()`. -/
def recvStderrReady (c : Chan) : Bool := c.errPend ≠ []

/-- The `while` condition:
`not channel.closed or channel.recv_ready() or channel.recv_stderr_ready()`. -/
def loopCond (c : Chan) : Bool := ¬ c.closed ∨ recvReady c ∨ recvStderrReady c

/-- The loop's termination test: exit status posted and both buffers empty. -/
def loopDone (c : Chan) : Bool := c.exitReady ∧ ¬ recvReady c ∧ ¬ recvStderrReady c

/-- One scripted iteration of the event loop. -/
structure Round where
  dOut : List Nat      -- stdout bytes arriving during the `select` wait
  dErr : List Nat      -- stderr bytes arriving during the wait
  closes : Bool        -- the channel transitions to closed
  exitArrives : Bool   -- the exit status lands
  signaled : Bool      -- `sel.select(...)` reports the channel ready
  raised : Bool        -- the iteration raises an `OSError`
  deriving DecidableEq, Repr

/-- Deliver a round's arrivals to the channel. -/
def applyRound (r : Round) (c : Chan) : Chan :=
  { c with
    outPend := c.outPend ++ r.dOut
    errPend := c.errPend ++ r.dErr
    closed := c.closed ∨ r.closes
    exitReady := c.exitReady ∨ r.exitArrives }

/-- Mutable state owned by the runner object during `run`. -/
structure RunSt where
  registered : Bool        -- the channel is registered with `self.sel`
  chanOpen : Bool          -- the channel is open
  stdoutOpen : Bool        -- the `stdout` file object is open
  stderrOpen : Bool        -- the `stderr` file object is open
  outChunks : List Nat     -- `self.stdout_chunks`
  errChunks : List Nat     -- `self.stderr_chunks`
  deriving DecidableEq, Repr

/-- `_read_buffer`: drain whatever is ready on each stream into the
accumulation buffers. -/
def readBufferStep (c : Chan) (st : RunSt) : RunSt × Chan :=
  let (st1, c1) :=
    if recvReady c then
      ({ st with outChunks := st.outChunks ++ c.outPend }, { c with outPend := [] })
    else (st, c)
  if recvStderrReady c1 then
    ({ st1 with errChunks := st1.errChunks ++ c1.errPend }, { c1 with errPend := [] })
  else (st1, c1)

/-- Result of running the event loop to its break / horizon. -/
structure LoopRes where
  res : Except PyErr Unit  -- `.error` when an iteration raised
  st : RunSt
  ch : Chan
  outLog : List Nat        -- stdout bytes drained during the loop, in order
  deriving Repr

/-- The `while` loop of `run` (lines 176–192), driven by the script.  An
exhausted script is the observation horizon: the loop is cut there. -/
def runLoop (st : RunSt) (ch : Chan) : List Round → LoopRes
  | [] => ⟨.ok (), st, ch, []⟩
  | r :: rest =>
    if loopCond ch then
      let ch1 := applyRound r ch
      if r.raised then ⟨.error .osError, st, ch1, []⟩
      else
        let sc := if r.signaled then readBufferStep ch1 st else (st, ch1)
        let drained := if r.signaled ∧ recvReady ch1 then ch1.outPend else []
        if loopDone sc.2 then ⟨.ok (), sc.1, sc.2, drained⟩
        else
          let k := runLoop sc.1 sc.2 rest
          ⟨k.res, k.st, k.ch, drained ++ k.outLog⟩
    else ⟨.ok (), st, ch, []⟩

/-- The decode-and-return step of `run` (lines 194–199): both buffers are
decoded with `errors='ignore'` and returned with the exit status. -/
def runDecodePhase (outB errB : List Nat) (code : Int) :
    Except PyErr (Int × List Nat × List Nat) :=
  match utf8DecodeWith .ignore outB with
  | .error _ => .error .unicodeError
  | .ok s =>
    match utf8DecodeWith .ignore errB with
    | .error _ => .error .unicodeError
    | .ok f => .ok (code, s, f)

/-- The pre-loop phase of `run` (lines 158–172): channel opened, stdin
closed, write side shut down, channel registered with the selector, then
`stdout_buffer_length = len(stdout.channel.in_buffer)` captured explicitly
— only the stdout buffer. -/
def runPre (ch : Chan) : RunSt × Chan :=
  let st0 : RunSt :=
    { registered := true, chanOpen := true, stdoutOpen := true, stderrOpen := true,
      outChunks := [], errChunks := [] }
  if ch.outPend.length > 0 then
    ({ st0 with outChunks := st0.outChunks ++ ch.outPend }, { ch with outPend := [] })
  else (st0, ch)

/-- The `finally` block of `run` (lines 200–206): `sel.unregister`,
`channel.close()`, `stdout.close()`, `stderr.close()`, and both
accumulation buffers reset to `b''`. -/
def runFinallyActions (st : RunSt) : RunSt :=
  let st1 := { st with registered := false }
  let st2 := { st1 with chanOpen := false }
  let st3 := { st2 with stdoutOpen := false }
  let st4 := { st3 with stderrOpen := false }
  { st4 with outChunks := [], errChunks := [] }

/-- `run` (lines 137–206), from the channel being handed over by
`exec_command` to the return: pre-loop phase, then the `try` block (loop,
decode, exit status), then the `finally` block applied to whatever state
the body left behind, whether it returned or raised. -/
def runModel (ch : Chan) (script : List Round) :
    Except PyErr (Int × List Nat × List Nat) × RunSt :=
  let pre := runPre ch
  let body := runLoop pre.1 pre.2 script
  let res :=
    match body.res with
    | .error e => .error e
    | .ok () => runDecodePhase body.st.outChunks body.st.errChunks body.ch.exitCode
  (res, runFinallyActions body.st)

/-! ## The memoized `sftp` property under concurrency (lines 215–229)

```
if self._sftp is None:
    self._sftp = self.client.open_sftp()
return self._sftp
```

Two callers race on this property.  Each caller is broken into its three
shared-memory-visiting steps — the `is None` read, the conditional
create-and-store (`open_sftp` performs network I/O, so another thread can
run between the read and the store), and the final `return self._sftp`
read.  Fresh handles are numbered by a counter so that distinct
`SFTPClient` instances are distinguishable. -/

/-- The shared state: the `_sftp` field and a supply of fresh handles. -/
structure SftpMem where
  val : Option Nat
  fresh : Nat
  deriving DecidableEq, Repr

/-- One caller of the `sftp` property: program counter, the value it read
at the `is None` test, and the handle it eventually returned. -/
structure SftpCaller where
  pc : Nat
  readV : Option (Option Nat)
  ret : Option Nat
  deriving DecidableEq, Repr

/-- Run one step of one caller against the shared state. -/
def sftpCallerStep (mem : SftpMem) (t : SftpCaller) : SftpMem × SftpCaller :=
  match t.pc with
  | 0 => (mem, { t with readV := some mem.val, pc := 1 })       -- test `self._sftp is None`
  | 1 =>
    if t.readV = some none then
      ({ val := some mem.fresh, fresh := mem.fresh + 1 }, { t with pc := 2 })  -- store `open_sftp()`
    else (mem, { t with pc := 2 })
  | 2 => (mem, { t with ret := mem.val, pc := 3 })              -- `return self._sftp`
  | _ => (mem, t)

/-- Two racing callers driven by a schedule (`true` steps the first
caller). -/
structure SftpSys where
  mem : SftpMem
  t1 : SftpCaller
  t2 : SftpCaller
  deriving DecidableEq, Repr

/-- A session whose `_sftp` field is still `None`, two callers at their
first instruction. -/
def sftpSysInit : SftpSys :=
  ⟨⟨none, 0⟩, ⟨0, none, none⟩, ⟨0, none, none⟩⟩

/-- Execute a schedule of interleaved steps. -/
def sftpSysRun (sys : SftpSys) : List Bool → SftpSys
  | [] => sys
  | b :: sched =>
    if b then
      let mt := sftpCallerStep sys.mem sys.t1
      sftpSysRun ⟨mt.1, mt.2, sys.t2⟩ sched
    else
      let mt := sftpCallerStep sys.mem sys.t2
      sftpSysRun ⟨mt.1, sys.t1, mt.2⟩ sched

/-! ## Concrete oracle environments (used to instantiate the theorems) -/

/-- A benign environment: the `local` argument is a path, every local path
exists and is a regular file, the remote filesystem reports not-found,
transfers succeed and every remote command exits 0 with empty output. -/
def envBase : Env where
  isFileLike := false
  abspath := fun p => p
  pathExists := fun _ => true
  isfile := fun _ => true
  osStat := fun _ => .notFound
  localStMode := fun _ => 33188
  sftpStat := fun _ => .notFound
  sftpPutRes := fun _ _ => none
  sftpGetRes := fun _ _ => none
  sftpChmodRes := fun _ _ => none
  run := fun _ => (0, "", "")
  parseStatMode := fun _ => none
  currentUser := "tester"

/-- Like `envBase`, but the remote path `/data` exists as a directory
(`st_mode = 0o040755`). -/
def envDirTarget : Env :=
  { envBase with sftpStat := fun p => if p = "/data" then .found 16877 else .notFound }

/-- Like `envBase`, but every remote path exists as a regular file
(`st_mode = 0o100644`). -/
def envFileTarget : Env :=
  { envBase with sftpStat := fun _ => .found 33188 }

/-- Like `envBase`, but on the local filesystem only `/home/u` exists, as a
directory (`st_mode = 0o040755`). -/
def envLocalParentDir : Env :=
  { envBase with osStat := fun p => if p = "/home/u" then .found 16877 else .notFound }

/-! # Helper lemmas -/

@[simp] theorem trBind_ok {α β : Type} (a : α) (t : List Eff) (f : α → TrM β) :
    trBind (.ok a, t) f = ((f a).1, t ++ (f a).2) := rfl

@[simp] theorem trBind_err {α β : Type} (e : PyErr) (t : List Eff) (f : α → TrM β) :
    trBind (.error e, t) f = (.error e, t) := rfl

@[simp] theorem bind_eq_trBind {α β : Type} (x : TrM α) (f : α → TrM β) :
    (x >>= f) = trBind x f := rfl

@[simp] theorem pure_eq_trPure {α : Type} (a : α) :
    (pure a : TrM α) = (.ok a, []) := rfl

@[simp] theorem terr_def {α : Type} (e : PyErr) : (terr e : TrM α) = (.error e, []) := rfl

@[simp] theorem temit_def (es : List Eff) : temit es = (.ok (), es) := rfl

@[simp] theorem isOk_okE {e a : Type} (x : a) : (Except.ok x : Except e a).isOk = true := rfl

@[simp] theorem isOk_iteE (c : Prop) [Decidable c] (x y : Except Unit (List Nat)) :
    (if c then x else y).isOk = if c then x.isOk else y.isOk := by
  split_ifs <;> rfl

@[simp] theorem isOk_mapE (f : List Nat → List Nat) (k : Except Unit (List Nat)) :
    (f <$> k).isOk = k.isOk := by cases k <;> rfl

/-- For a non-`strict` handler the error hook preserves success. -/
theorem isOk_onErr (h : Utf8Handler) (hh : h ≠ .strict) (k : Except Unit (List Nat)) :
    (utf8OnErr h k).isOk = k.isOk := by
  cases h with
  | strict => exact absurd rfl hh
  | ignore => rfl
  | replace => cases k <;> rfl

set_option maxHeartbeats 1000000 in
/-- Decoding with a non-`strict` error handler succeeds on every byte
list (induction on a length bound, splitting on the head sequence). -/
theorem utf8DecodeWith_isOk_aux (h : Utf8Handler) (hh : h ≠ .strict) :
    ∀ (n : Nat) (bs : List Nat), bs.length ≤ n → (utf8DecodeWith h bs).isOk = true := by
  intro n
  induction n with
  | zero =>
    intro bs hb
    have hbs : bs = [] := List.length_eq_zero.mp (Nat.le_zero.mp hb)
    subst hbs; rfl
  | succ n ih =>
    intro bs hb
    have i0 : (utf8DecodeWith h []).isOk = true := rfl
    match bs with
    | [] => rfl
    | [b0] =>
      rw [utf8DecodeWith]
      simp [isOk_onErr h hh, i0]
    | [b0, b1] =>
      have hn : (1 : Nat) ≤ n := by simp at hb; omega
      have i1 := ih [b1] (by simpa using hn)
      rw [utf8DecodeWith]
      simp [isOk_onErr h hh, i0, i1]
    | [b0, b1, b2] =>
      have hn : (2 : Nat) ≤ n := by simp at hb; omega
      have i1 := ih [b1, b2] (by simpa using hn)
      have i2 := ih [b2] (by simp; omega)
      rw [utf8DecodeWith]
      simp [isOk_onErr h hh, i0, i1, i2]
    | b0 :: b1 :: b2 :: b3 :: rest =>
      have hlen : rest.length + 4 ≤ n + 1 := by simpa using hb
      have i1 := ih (b1 :: b2 :: b3 :: rest) (by simp; omega)
      have i2 := ih (b2 :: b3 :: rest) (by simp; omega)
      have i3 := ih (b3 :: rest) (by simp; omega)
      have i4 := ih rest (by omega)
      rw [utf8DecodeWith]
      simp [isOk_onErr h hh, i0, i1, i2, i3, i4]

/-- Decoding with a non-`strict` error handler never raises. -/
theorem utf8DecodeWith_isOk (h : Utf8Handler) (hh : h ≠ .strict) (bs : List Nat) :
    (utf8DecodeWith h bs).isOk = true :=
  utf8DecodeWith_isOk_aux h hh bs.length bs le_rfl

/-! # Theorems for the claims -/

/-! ## C2 — decoding of the accumulated output bytes -/

/-- C2, counterexample: `run` decodes with `errors='ignore'`, which is not
substitution decoding — on the invalid byte `0xFF`, `'ignore'` yields the
empty text while substitution yields U+FFFD. -/
theorem decode_substitution_cex :
    ¬ (∀ bs : List Nat, utf8DecodeWith .ignore bs = utf8DecodeWith .replace bs) := by
  intro hall
  have h := hall [255]
  rw [show utf8DecodeWith .ignore [255] = .ok [] from rfl,
    show utf8DecodeWith .replace [255] = .ok [0xFFFD] from rfl] at h
  simp at h

/-- C2, amended: decoding the accumulated stdout/stderr bytes never
raises, for every byte sequence — but invalid byte sequences are tolerated
by being dropped (`errors='ignore'`), not by substitution. -/
theorem decode_never_raises (outB errB : List Nat) (code : Int) :
    ∃ s f, runDecodePhase outB errB code = .ok (code, s, f) := by
  have h1 := utf8DecodeWith_isOk .ignore (by decide) outB
  have h2 := utf8DecodeWith_isOk .ignore (by decide) errB
  cases hs : utf8DecodeWith .ignore outB with
  | error e => rw [hs] at h1; exact absurd h1 (by simp [Except.isOk, Except.toBool])
  | ok s =>
    cases hf : utf8DecodeWith .ignore errB with
    | error e => rw [hf] at h2; exact absurd h2 (by simp [Except.isOk, Except.toBool])
    | ok f => exact ⟨s, f, by simp [runDecodePhase, hs, hf]⟩

/-! ## C3 — duration validation at construction -/

/-- C3, counterexample: construction does NOT succeed only for positive
finite durations — `duration=float('inf')` converts to infinity, which is
not finite, yet `inf <= 0` is false so the constructor accepts it. -/
theorem duration_positive_finite_cex :
    ¬ (∀ conv : Except PyErr PyFloat,
        (∃ d, (initModel (some conv)).1 = .ok (some d)) ↔
          (∃ q : ℚ, conv = .ok (.finite q) ∧ 0 < q)) := by
  intro hall
  obtain ⟨q, hq, -⟩ := (hall (.ok .inf)).1 ⟨.inf, rfl⟩
  exact PyFloat.noConfusion (Except.ok.inj hq)

/-- C3, amended: for a non-`None` duration, construction succeeds iff the
`float(...)` conversion succeeds and the resulting value does not compare
`<= 0` (so `+inf` and NaN are accepted as well as positive finite values);
when it fails, it fails before the connection is made, hence before any
command can be run. -/
theorem duration_check_semantics (conv : Except PyErr PyFloat) :
    ((∃ d, (initModel (some conv)).1 = .ok (some d)) ↔
      (∃ d, conv = .ok d ∧ pyFloatLeZero d = false)) ∧
    ((initModel (some conv)).1.isOk = false → (initModel (some conv)).2 = []) := by
  constructor
  · cases conv with
    | error e => simp [initModel, checkDuration]
    | ok d =>
      by_cases h : pyFloatLeZero d <;> simp [initModel, checkDuration, h]
  · intro hno
    cases conv with
    | error e => rfl
    | ok d =>
      by_cases h : pyFloatLeZero d
      · simp [initModel, checkDuration, h]
      · exfalso
        simp [initModel, checkDuration, h, Except.isOk, Except.toBool] at hno

/-- C3, witness: a duration converting to `-1.0` is rejected with no
connect effect issued. -/
theorem duration_check_semantics_witness :
    (initModel (some (.ok (.finite (-1))))).2 = [] :=
  (duration_check_semantics (.ok (.finite (-1)))).2 (by decide)

/-! ## C9 — memoized transfer handle under concurrent first access -/

/-- C9, counterexample: with the plain check-then-create in the `sftp`
property, an interleaving of two first-time callers exists in which both
complete and return distinct handle instances. -/
theorem sftp_race_cex :
    ¬ (∀ sched : List Bool,
        (sftpSysRun sftpSysInit sched).t1.pc = 3 →
        (sftpSysRun sftpSysInit sched).t2.pc = 3 →
        (sftpSysRun sftpSysInit sched).t1.ret = (sftpSysRun sftpSysInit sched).t2.ret) := by
  intro hall
  have h := hall [true, false, false, false, true, true] (by decide) (by decide)
  exact absurd h (by decide)

/-- C9, amended: the memoization is a plain check-then-create, so only
serialized first accesses are guaranteed a single instance: when either
caller runs to completion before the other starts, both observe the same
single handle and exactly one handle is ever created.  (Concurrent
interleaved first accesses can observe two distinct handles.) -/
theorem sftp_serialized_single_instance (b : Bool) :
    (sftpSysRun sftpSysInit [b, b, b, !b, !b, !b]).t1.ret = some 0 ∧
    (sftpSysRun sftpSysInit [b, b, b, !b, !b, !b]).t2.ret = some 0 ∧
    (sftpSysRun sftpSysInit [b, b, b, !b, !b, !b]).mem.fresh = 1 := by
  cases b <;> exact ⟨rfl, rfl, rfl⟩

/-! ## C4 — channel cleanup on every return path of `run` -/

/-- C4: for every channel state and every multiplexer script — including
scripts in which an iteration of the event loop raises — when `run`
returns, the channel has been unregistered from the selector, the channel
and its stdout/stderr streams are closed, and both accumulation buffers
have been reset to empty. -/
theorem run_cleanup_on_all_paths (ch : Chan) (script : List Round) :
    (runModel ch script).2.registered = false ∧
    (runModel ch script).2.chanOpen = false ∧
    (runModel ch script).2.stdoutOpen = false ∧
    (runModel ch script).2.stderrOpen = false ∧
    (runModel ch script).2.outChunks = [] ∧
    (runModel ch script).2.errChunks = [] := by
  refine ⟨rfl, rfl, rfl, rfl, rfl, rfl⟩

/-! ## C6 — capture of pre-registration buffered bytes -/

/-- `_read_buffer` appends the pending stdout bytes exactly when
`recv_ready()`. -/
theorem readBufferStep_outChunks (c : Chan) (st : RunSt) :
    (readBufferStep c st).1.outChunks =
      st.outChunks ++ (if recvReady c then c.outPend else []) := by
  by_cases h1 : recvReady c <;>
    by_cases h2 : recvStderrReady (if recvReady c then { c with outPend := [] } else c) <;>
      simp_all [readBufferStep]

/-- The event loop only ever appends to the stdout accumulation buffer, and
`outLog` records exactly the appended bytes in order. -/
theorem runLoop_outChunks_append (script : List Round) :
    ∀ st ch, (runLoop st ch script).st.outChunks =
      st.outChunks ++ (runLoop st ch script).outLog := by
  induction script with
  | nil => intro st ch; simp [runLoop]
  | cons r rest ih =>
    intro st ch
    by_cases hc : loopCond ch
    · by_cases hr : r.raised
      · simp [runLoop, hc, hr]
      · by_cases hs : r.signaled
        · by_cases hd : loopDone (readBufferStep (applyRound r ch) st).2
          · simp [runLoop, hc, hr, hs, hd, readBufferStep_outChunks]
          · simp [runLoop, hc, hr, hs, hd, ih, readBufferStep_outChunks,
              List.append_assoc]
        · by_cases hd : loopDone (applyRound r ch)
          · simp [runLoop, hc, hr, hs, hd]
          · simp [runLoop, hc, hr, hs, hd, ih]
    · simp [runLoop, hc]

/-- C6, counterexample: it is not the case that both streams' pre-buffered
bytes are captured by the explicit pre-loop capture — the code reads only
`stdout.channel.in_buffer`, so a channel with pending stderr bytes enters
the event loop with the stderr accumulation buffer still empty. -/
theorem initial_capture_cex :
    ¬ (∀ ch : Chan,
        (runPre ch).1.outChunks = ch.outPend ∧
        (runPre ch).1.errChunks = ch.errPend) := by
  intro hall
  have h := (hall ⟨[], [69], true, true, 0⟩).2
  simp [runPre] at h

/-- C6, amended: only the stdout bytes already buffered on the channel are
captured once, explicitly, before the event loop (the stderr buffer is not
pre-captured), and the pre-captured stdout bytes appear in the stdout
accumulation buffer before all bytes drained during the event loop, whose
order the loop preserves. -/
theorem initial_stdout_capture_order (ch : Chan) (script : List Round) :
    (runPre ch).1.outChunks = ch.outPend ∧
    (runPre ch).1.errChunks = [] ∧
    (runPre ch).2.outPend = [] ∧
    (runLoop (runPre ch).1 (runPre ch).2 script).st.outChunks =
      ch.outPend ++ (runLoop (runPre ch).1 (runPre ch).2 script).outLog := by
  have hpre : (runPre ch).1.outChunks = ch.outPend ∧ (runPre ch).1.errChunks = [] ∧
      (runPre ch).2.outPend = [] := by
    by_cases h : ch.outPend.length > 0
    · simp [runPre, h]
    · have : ch.outPend = [] := by
        cases he : ch.outPend with
        | nil => rfl
        | cons a l => rw [he] at h; simp at h
      simp [runPre, h, this]
  refine ⟨hpre.1, hpre.2.1, hpre.2.2, ?_⟩
  rw [runLoop_outChunks_append script (runPre ch).1 (runPre ch).2, hpre.1]

/-! ## C1 — fail-fast validation of the remote path -/

/-- C1, counterexample: `put`/`get` with an empty remote path do fail with
`ValueError` before any SFTP operation or remote command, but NOT before
the file-transfer sub-channel is opened: both methods read the `sftp`
property (opening the sub-channel on first access) before validating
`remote`, so the trace of a first call contains the channel-open effect. -/
theorem remote_validation_channel_cex :
    getModel envBase false "" "/tmp/x" true false = (.error .valueError, [.openSftp]) ∧
    putModel envBase false "/src/file" "" true false = (.error .valueError, [.openSftp]) ∧
    Eff.openSftp ∈ (getModel envBase false "" "/tmp/x" true false).2 := by
  refine ⟨rfl, rfl, ?_⟩
  rw [show (getModel envBase false "" "/tmp/x" true false).2 = [Eff.openSftp] from rfl]
  exact List.mem_singleton.2 rfl

/-- C1, amended: for every `put` (with a valid local file argument) and
every `get` whose remote path is empty or relative, the call fails with
`ValueError` before any remote SFTP operation or remote command is issued;
the only effect that can precede the failure is the opening of the
file-transfer sub-channel itself (on its first access), which both methods
perform before validating the remote path. -/
theorem remote_validation_fail_fast (env : Env) (c : Bool) (localArg remote : String)
    (p s : Bool)
    (hbad : remote = "" ∨ pyIsAbs remote = false)
    (hfl : env.isFileLike = false)
    (hex : env.pathExists (if pyIsAbs localArg then localArg else env.abspath localArg) = true)
    (hif : env.isfile (if pyIsAbs localArg then localArg else env.abspath localArg) = true) :
    putModel env c localArg remote p s = (.error .valueError, if c then [] else [.openSftp]) ∧
    getModel env c remote localArg p s = (.error .valueError, if c then [] else [.openSftp]) := by
  by_cases h0 : remote = ""
  · constructor
    · simp [putModel, hfl, hex, hif, sftpAccess, h0]
    · simp [getModel, sftpAccess, h0]
  · have hb : pyIsAbs remote = false := by
      rcases hbad with hb | hb
      · exact absurd hb h0
      · exact hb
    constructor
    · simp [putModel, hfl, hex, hif, sftpAccess, h0, hb]
    · simp [getModel, sftpAccess, h0, hb]

/-- C1, witness: a concrete first call with a relative remote path fails
with `ValueError`, the trace holding exactly the sub-channel opening. -/
theorem remote_validation_fail_fast_witness :
    putModel envBase false "/src/file" "relative/path" true false =
      (.error .valueError, [.openSftp]) ∧
    getModel envBase false "relative/path" "/l" true false =
      (.error .valueError, [.openSftp]) :=
  remote_validation_fail_fast envBase false "/src/file" "relative/path" true false
    (Or.inr (by decide)) rfl rfl rfl

/-! ## C5 — destination resolution of `put` -/

/-- C5: when the remote-path probe finds a directory, the effective target
becomes `remote/basename(local)`; when the probe reports not-found, `put`
fails with not-found if the remote path's parent is `/`, and otherwise
proceeds (with the original target) exactly when probing the parent
succeeds, a not-found parent propagating as a not-found error. -/
theorem put_destination_resolution (env : Env) (useSudo : Bool) (remote base : String) :
    (∀ m, env.sftpStat remote = .found m → S_ISDIR m = true →
      (resolvePutTargetM env useSudo remote base).1 = .ok (pyJoin remote base)) ∧
    (env.sftpStat remote = .notFound → pyDirname remote = "/" →
      (resolvePutTargetM env useSudo remote base).1 = .error .fileNotFound) ∧
    (env.sftpStat remote = .notFound → ¬ pyDirname remote = "/" →
      (((∃ m, env.sftpStat (pyDirname remote) = .found m) ↔
          (resolvePutTargetM env useSudo remote base).1 = .ok remote) ∧
        (env.sftpStat (pyDirname remote) = .notFound →
          (resolvePutTargetM env useSudo remote base).1 = .error .fileNotFound))) := by
  refine ⟨?_, ?_, ?_⟩
  · intro m hm hdir
    simp [resolvePutTargetM, hm, hdir]
  · intro hnf hroot
    simp [resolvePutTargetM, hnf, hroot]
  · intro hnf hroot
    constructor
    · constructor
      · rintro ⟨m, hm⟩
        simp [resolvePutTargetM, hnf, hroot, hm]
      · intro hok
        cases hp : env.sftpStat (pyDirname remote) with
        | found m => exact ⟨m, rfl⟩
        | notFound => simp [resolvePutTargetM, hnf, hroot, hp] at hok
        | permDenied => simp [resolvePutTargetM, hnf, hroot, hp] at hok
        | otherErr => simp [resolvePutTargetM, hnf, hroot, hp] at hok
    · intro hp
      simp [resolvePutTargetM, hnf, hroot, hp]

/-- C5, witness: uploading `f.txt` towards the existing remote directory
`/data` resolves the target to `/data/f.txt`, and with parent probing, a
missing `/no/file` with existing parent-probe failure propagates. -/
theorem put_destination_resolution_witness :
    (resolvePutTargetM envDirTarget false "/data" "f.txt").1 = .ok "/data/f.txt" ∧
    (resolvePutTargetM envDirTarget false "/no/file" "f.txt").1 = .error .fileNotFound := by
  constructor
  · have h := (put_destination_resolution envDirTarget false "/data" "f.txt").1
      16877 (by decide) (by decide)
    rw [h]
    rfl
  · exact (put_destination_resolution envDirTarget false "/no/file" "f.txt").2.2
      (by decide) (by decide) |>.2 (by decide)

/-! ## C7 — privilege-escalation fallback sequence of `get` -/

/-- C7, counterexample: not every remote command issued by `get`'s
escalation fallback is elevated — the identity discovery is a plain
`whoami`, not prefixed by `sudo `. -/
theorem get_fallback_whoami_cex :
    ¬ (∀ (env : Env) (remote localAbs c : String),
        Eff.runCmd c ∈ (getSudoFallback env remote localAbs).2 →
        c.take 5 = "sudo ") := by
  intro hall
  have h := hall envBase "/etc/secret" "/home/u/s" "whoami" (by decide)
  exact absurd h (by decide)

/-- C7, amended: on a permission error with escalation enabled, the
fallback issues, in order: an elevated copy of the remote file to `/tmp`,
a (non-elevated) `whoami` identity discovery, an elevated ownership
transfer of the staged copy (guarded by an elevated existence test in the
same command line), a fetch of the staged copy, and a remote removal of
the staged copy; each command uses a fixed literal template, and every
intermediate command's non-zero exit aborts the sequence with
`RuntimeError`. -/
theorem get_fallback_sequence (env : Env) (remote localAbs : String)
    (ccp cchown tmpR uname : String)
    (hccp : ccp = "sudo cp " ++ remote ++ " /tmp")
    (huser : uname = pyStrip (env.run "whoami").2.1)
    (htmp : tmpR = pyJoin "/tmp" (pyBasename remote))
    (hcch : cchown = "sudo [ -f " ++ tmpR ++ " ] && sudo chown " ++ uname ++ ":" ++
      uname ++ " " ++ tmpR) :
    ((env.run ccp).1 ≠ 0 →
      getSudoFallback env remote localAbs = (.error .runtimeError, [.runCmd ccp])) ∧
    ((env.run ccp).1 = 0 → (env.run "whoami").1 ≠ 0 →
      getSudoFallback env remote localAbs =
        (.error .runtimeError, [.runCmd ccp, .runCmd "whoami"])) ∧
    ((env.run ccp).1 = 0 → (env.run "whoami").1 = 0 → (env.run cchown).1 ≠ 0 →
      getSudoFallback env remote localAbs =
        (.error .runtimeError, [.runCmd ccp, .runCmd "whoami", .runCmd cchown])) ∧
    ((env.run ccp).1 = 0 → (env.run "whoami").1 = 0 → (env.run cchown).1 = 0 →
      env.sftpGetRes tmpR localAbs = none →
      getSudoFallback env remote localAbs =
        (.ok (), [.runCmd ccp, .runCmd "whoami", .runCmd cchown,
          .sftpGet tmpR localAbs, .sftpRemove tmpR])) ∧
    ((env.run ccp).1 = 0 → (env.run "whoami").1 = 0 → (env.run cchown).1 = 0 →
      ∀ e, env.sftpGetRes tmpR localAbs = some e →
      getSudoFallback env remote localAbs =
        (.error e, [.runCmd ccp, .runCmd "whoami", .runCmd cchown,
          .sftpGet tmpR localAbs])) := by
  subst hccp huser htmp hcch
  refine ⟨?_, ?_, ?_, ?_, ?_⟩
  · intro h1
    simp [getSudoFallback, h1]
  · intro h1 h2
    simp [getSudoFallback, h1, h2]
  · intro h1 h2 h3
    simp [getSudoFallback, h1, h2, h3]
  · intro h1 h2 h3 h4
    simp [getSudoFallback, h1, h2, h3, h4]
  · intro h1 h2 h3 e h4
    simp [getSudoFallback, h1, h2, h3, h4]

/-- C7, witness: with every remote command succeeding and the staged fetch
succeeding, the fallback issues exactly the five steps in order. -/
theorem get_fallback_sequence_witness :
    getSudoFallback envBase "/etc/secret" "/home/u/s" =
      (.ok (), [.runCmd "sudo cp /etc/secret /tmp", .runCmd "whoami",
        .runCmd "sudo [ -f /tmp/secret ] && sudo chown : /tmp/secret",
        .sftpGet "/tmp/secret" "/home/u/s", .sftpRemove "/tmp/secret"]) := by
  have h := (get_fallback_sequence envBase "/etc/secret" "/home/u/s"
    "sudo cp /etc/secret /tmp" "sudo [ -f /tmp/secret ] && sudo chown : /tmp/secret"
    "/tmp/secret" "" rfl rfl rfl rfl).2.2.2.1 rfl rfl rfl rfl
  rw [h]

/-! ## C8 — local-path directory-intent check of `get` -/

/-- C8, evaluation at the failing input: downloading to
`local="/home/u/newdir/"` (trailing separator, target absent, parent
`/home/u` an existing directory) passes the local check with no rejection:
the code computes `stat.S_ISDIR(os.stat(dirname).st_mode)` for the parent
and discards the result, so the trailing-separator directory intent the
parent check is meant to catch is never rejected. -/
theorem get_local_dir_intent_eval :
    envLocalParentDir.osStat "/home/u" = .found 16877 ∧
    S_ISDIR 16877 = true ∧
    getLocalCheck envLocalParentDir "/home/u/newdir/" = (.ok (), []) := by
  refine ⟨rfl, by decide, rfl⟩

/-! ## C10 — the existing-target pre-check of `put` never aborts -/

/-- C10: once validation and destination resolution have succeeded, the
existing-target pre-check is transparent: `put`'s outcome is exactly that
of the transfer phase, the pre-check contributing only its probe (and, for
an existing target, a rewrite warning) to the trace; a not-found or
permission error from the probe is swallowed, an existing target only
produces the warning. -/
theorem put_exist_precheck_transparent (env : Env) (c : Bool) (localArg remote : String)
    (p useSudo : Bool) (localAbs target : String) (rtr : List Eff)
    (hla : localAbs = (if pyIsAbs localArg then localArg else env.abspath localArg))
    (hfl : env.isFileLike = false)
    (hex : env.pathExists localAbs = true)
    (hif : env.isfile localAbs = true)
    (hr0 : ¬ remote = "")
    (hr1 : pyIsAbs remote = true)
    (hres : resolvePutTargetM env useSudo remote (pyBasename localAbs) = (.ok target, rtr))
    (hpre : env.sftpStat target ≠ .otherErr) :
    putModel env c localArg remote p useSudo =
      ((putTransferPhase env localAbs target p).1,
        (if c then [] else [.openSftp]) ++ rtr ++
          (putExistCheck (env.sftpStat target) target).2 ++
          (putTransferPhase env localAbs target p).2) ∧
    (putExistCheck (env.sftpStat target) target).1 = .ok () ∧
    (Eff.warnExists target ∈ (putExistCheck (env.sftpStat target) target).2 ↔
      ∃ m, env.sftpStat target = .found m) := by
  subst hla
  cases hstat : env.sftpStat target with
  | otherErr => exact absurd hstat hpre
  | found m =>
    refine ⟨?_, by simp [putExistCheck, hstat], ?_⟩
    · simp [putModel, hfl, hex, hif, hr0, hr1, sftpAccess, hres, putExistCheck, hstat]
    · simp only [putExistCheck, hstat]
      constructor
      · intro _; exact ⟨m, rfl⟩
      · intro _; simp
  | notFound =>
    refine ⟨?_, by simp [putExistCheck, hstat], ?_⟩
    · simp [putModel, hfl, hex, hif, hr0, hr1, sftpAccess, hres, putExistCheck, hstat]
    · simp [putExistCheck, hstat]
  | permDenied =>
    refine ⟨?_, by simp [putExistCheck, hstat], ?_⟩
    · simp [putModel, hfl, hex, hif, hr0, hr1, sftpAccess, hres, putExistCheck, hstat]
    · simp [putExistCheck, hstat]

/-- C10, witness: with an existing regular-file target the pre-check
passes (only warning), and the upload reaches the transfer phase. -/
theorem put_exist_precheck_transparent_witness :
    (putExistCheck (envFileTarget.sftpStat "/r/t") "/r/t").1 = .ok () ∧
    putModel envFileTarget true "/a/b.txt" "/r/t" false false =
      ((putTransferPhase envFileTarget "/a/b.txt" "/r/t" false).1,
        [] ++ [Eff.sftpStat "/r/t"] ++
          (putExistCheck (envFileTarget.sftpStat "/r/t") "/r/t").2 ++
          (putTransferPhase envFileTarget "/a/b.txt" "/r/t" false).2) := by
  have h := put_exist_precheck_transparent envFileTarget true "/a/b.txt" "/r/t" false false
    "/a/b.txt" "/r/t" [.sftpStat "/r/t"] rfl rfl rfl rfl (by decide) rfl rfl (by decide)
  exact ⟨h.2.1, h.1⟩

end SSHSpec
